import Mathlib

/-!
Verification of the role-synchronization core of the MonitoringService
repository: a shallow embedding of `ChangeUserRoleService.changeUserRole`,
its validation rules, the Microsoft Graph helpers it calls, and the audit
log, together with theorems settling the stated properties.
-/

set_option maxRecDepth 4096

namespace MonitoringService

/-- User roles, mirroring the Prisma `UserRole` enum. -/
inductive UserRole
  | SuperAdmin
  | Admin
  | Supervisor
  | ContactManager
  | Employee
deriving DecidableEq, Repr

/-- A local principal row.  `role` is nullable in the database (service code
checks `existing.role &&`), hence `Option UserRole`. -/
structure User where
  id : String
  azureAdObjectId : String
  email : String
  fullName : String
  role : Option UserRole
deriving DecidableEq, Repr

/-- Mirrors the TS `ExpectedError (message, statusCode)` thrown by the
validation rules. -/
structure ExpectedError where
  message : String
  status : Nat
deriving DecidableEq, Repr

/-- Message constants from `changeUserRoleMessages.ts`. -/
def CANNOT_CHANGE_OWN_ROLE : String := "Cannot change own role"

/-- Message constant from `changeUserRoleMessages.ts`. -/
def CANNOT_CHANGE_SUPERADMIN : String := "Cannot change SuperAdmin role"

/-- Message constant from `changeUserRoleMessages.ts`. -/
def SUPERVISOR_LIMITED_ACCESS : String := "Supervisors may only assign Employee role"

/-- Message constant from `changeUserRoleMessages.ts`. -/
def INSUFFICIENT_PERMISSIONS : String := "Only Admin or Supervisor may change roles"

/-- Message constant from `changeUserRoleMessages.ts`. -/
def AZURE_AD_UPDATE_FAILED : String := "Failed to update Azure AD roles"

/-- Message constant from `changeUserRoleMessages.ts`. -/
def ROLE_CHANGED_SUCCESSFULLY : String := "User role changed successfully"

/-- Message constant from `changeUserRoleMessages.ts`. -/
def USER_DELETED_SUCCESSFULLY : String := "User deleted successfully"

/-- Inline message from `validateRoleChange`. -/
def ALREADY_HAS_ROLE : String := "User already has this role"

/-- `ChangeUserRoleStatus` from `changeUserRoleMessages.ts`. -/
inductive ChangeUserRoleStatus
  | SUCCESS
  | FAILED
  | ROLLBACK_REQUIRED
deriving DecidableEq, Repr

/-- `AzureADRetryStatus` from `changeUserRoleMessages.ts`. -/
inductive AzureADRetryStatus
  | SUCCESS
  | FAILED
  | MAX_RETRIES_EXCEEDED
deriving DecidableEq, Repr

/-- `ChangeUserRoleValidationRules.validateNotSelfChange`: throws when
`currentUser.email === targetEmail` (exact string comparison). -/
def validateNotSelfChange (currentUser : User) (targetEmail : String) :
    Except ExpectedError Unit :=
  if currentUser.email = targetEmail then
    .error ⟨CANNOT_CHANGE_OWN_ROLE, 400⟩
  else .ok ()

/-- `ChangeUserRoleValidationRules.validateNotSuperAdminChange`: throws when
the target user currently has the SuperAdmin role. -/
def validateNotSuperAdminChange (targetUser : User) :
    Except ExpectedError Unit :=
  if targetUser.role = some .SuperAdmin then
    .error ⟨CANNOT_CHANGE_SUPERADMIN, 400⟩
  else .ok ()

/-- `ChangeUserRoleValidationRules.validateSupervisorRoleAssignment`: a
Supervisor caller may only assign the Employee role (a null `newRole`
also fails the check). -/
def validateSupervisorRoleAssignment (callerRole : Option UserRole)
    (newRole : Option UserRole) : Except ExpectedError Unit :=
  if callerRole = some .Supervisor ∧ newRole ≠ some .Employee then
    .error ⟨SUPERVISOR_LIMITED_ACCESS, 403⟩
  else .ok ()

/-- `ChangeUserRoleValidationRules.validateCallerPermissions`. -/
def validateCallerPermissions (callerRole : Option UserRole)
    (targetRole : Option UserRole) (newRole : Option UserRole) :
    Except ExpectedError Unit :=
  if callerRole = some .SuperAdmin then .ok ()
  else if callerRole = some .Admin then
    if targetRole = some .SuperAdmin then
      .error ⟨CANNOT_CHANGE_SUPERADMIN, 403⟩
    else .ok ()
  else if callerRole = some .Supervisor then
    if newRole ≠ some .Employee then
      .error ⟨SUPERVISOR_LIMITED_ACCESS, 403⟩
    else .ok ()
  else .error ⟨INSUFFICIENT_PERMISSIONS, 403⟩

/-- `ChangeUserRoleValidationRules.validateRoleChange`. -/
def validateRoleChange (currentRole : Option UserRole)
    (newRole : Option UserRole) : Except ExpectedError Unit :=
  if currentRole = newRole then .error ⟨ALREADY_HAS_ROLE, 400⟩
  else if currentRole = some .SuperAdmin then
    .error ⟨CANNOT_CHANGE_SUPERADMIN, 400⟩
  else .ok ()

/-- One row of the `appRoleAssignedTo` (or user-side `appRoleAssignments`)
collection in the directory. -/
structure Assignment where
  id : String
  principalId : String
  appRoleId : String
deriving DecidableEq, Repr

/-- Directory listing state: the pages Graph would serve (each page linked to
the next by an `@odata.nextLink`), plus an oracle telling which DELETE calls
fail. -/
structure Directory where
  pages : List (List Assignment)
  deleteFails : String → Bool

/-- Inner loop of `removeAllAppRolesFromPrincipalOnSp` over one page: delete
each assignment whose `principalId` matches, left to right, stopping at the
first failing DELETE.  Returns (removed count, remaining assignments,
failed?). -/
def clearAssignments (fails : String → Bool) (pid : String) :
    List Assignment → Nat × List Assignment × Bool
  | [] => (0, [], false)
  | a :: rest =>
    if a.principalId = pid then
      if fails a.id then (0, a :: rest, true)
      else
        let r := clearAssignments fails pid rest
        (r.1 + 1, r.2.1, r.2.2)
    else
      let r := clearAssignments fails pid rest
      (r.1, a :: r.2.1, r.2.2)

/-- Page loop of `removeAllAppRolesFromPrincipalOnSp`: follow `nextLink`
through every page, clearing matching assignments; stop at the first failing
DELETE. -/
def clearPages (fails : String → Bool) (pid : String) :
    List (List Assignment) → Nat × List (List Assignment) × Bool
  | [] => (0, [], false)
  | p :: ps =>
    let r := clearAssignments fails pid p
    if r.2.2 then (r.1, r.2.1 :: ps, true)
    else
      let r' := clearPages fails pid ps
      (r.1 + r'.1, r.2.1 :: r'.2.1, r'.2.2)

/-- `graphService.removeAllAppRolesFromPrincipalOnSp`: pages through the
service principal's `appRoleAssignedTo` via `@odata.nextLink`, deleting every
assignment of the given principal; any failing DELETE throws, leaving the
deletions already performed in place.  Returns the thrown-or-count outcome
and the directory state afterwards. -/
def removeAllAppRolesFromPrincipalOnSp (dir : Directory) (principalId : String) :
    Except String Nat × Directory :=
  let r := clearPages dir.deleteFails principalId dir.pages
  (if r.2.2 then .error "Failed to delete appRoleAssignedTo" else .ok r.1,
   { dir with pages := r.2.1 })

/-- `graphService.fetchAppRoleMemberIds`: pages through `appRoleAssignedTo`
via `@odata.nextLink`, collecting the `principalId` of every assignment whose
`appRoleId` matches (a Set in TS; deduplicated here). -/
def fetchAppRoleMemberIds (pages : List (List Assignment)) (appRoleId : String) :
    List String :=
  (pages.flatten.filter (fun a => a.appRoleId = appRoleId)).foldl
    (fun acc a => if a.principalId ∈ acc then acc else acc ++ [a.principalId]) []

/-- Delete every assignment of a single listed page, left to right, stopping
at the first failing DELETE.  Returns (remaining assignments, failed?). -/
def deleteListedAssignments (fails : String → Bool) :
    List Assignment → List Assignment × Bool
  | [] => ([], false)
  | a :: rest =>
    if fails a.id then (a :: rest, true)
    else deleteListedAssignments fails rest

/-- `UserRoleManagementService.removeAllAppRolesFromUser`: issues ONE GET of
`/users/.../appRoleAssignments` (the server filters by `resourceId`) and
deletes each returned assignment.  The response is the first page only: the
code has no `@odata.nextLink` loop. -/
def removeAllAppRolesFromUser (fails : String → Bool)
    (pages : List (List Assignment)) :
    Except String Unit × List (List Assignment) :=
  match pages with
  | [] => (.ok (), [])
  | p :: ps =>
    let r := deleteListedAssignments fails p
    (if r.2 then .error "Failed to delete assignment" else .ok (), r.1 :: ps)

/-- Events recording the externally visible actions of a
`changeUserRole` run, in order. -/
inductive Event
  | storeRead (email : String)
  | storeUpsert (email : String) (role : Option UserRole)
  | storeDelete (email : String)
  | graphResolve (email : String)
  | clearGrants (principalId : String)
  | assignAttempt (attempt : Nat) (roleId : Option String)
  | sleep (ms : Nat)
  | auditWrite
  | presenceOffline (email : String)
deriving DecidableEq, Repr

/-- Per-role directory scope identifiers drawn from the environment
(`SUPERVISORS_GROUP_ID`, `ADMINS_GROUP_ID`, `EMPLOYEES_GROUP_ID`,
`CONTACT_MANAGER_GROUP_ID`). -/
structure RoleScopeConfig where
  supervisorsGroupId : String
  adminsGroupId : String
  employeesGroupId : String
  contactManagerGroupId : String
deriving DecidableEq, Repr

/-- The `roleIdMap` record built in `updateAzureADWithRetry`: it has entries
for Supervisor, Admin, Employee and ContactManager only, so indexing with
SuperAdmin yields `undefined` (here `none`). -/
def roleIdMap (cfg : RoleScopeConfig) : UserRole → Option String
  | .Supervisor => some cfg.supervisorsGroupId
  | .Admin => some cfg.adminsGroupId
  | .Employee => some cfg.employeesGroupId
  | .ContactManager => some cfg.contactManagerGroupId
  | .SuperAdmin => none

/-- Loop body of `ChangeUserRoleService.updateAzureADWithRetry`, recursing on
the remaining attempt budget.  The TS loop runs `attempt` from 1 to
`maxRetries`; a successful `assignAppRoleToPrincipal` returns SUCCESS at
once; on failure at `attempt == maxRetries` it returns
MAX_RETRIES_EXCEEDED, otherwise it sleeps `1000 * attempt` ms and retries. -/
def retryGo (assignOk : Nat → Bool) (roleId : Option String)
    (maxRetries : Nat) : Nat → Nat → AzureADRetryStatus × List Event
  | _, 0 => (.MAX_RETRIES_EXCEEDED, [])
  | attempt, fuel + 1 =>
    if assignOk attempt then (.SUCCESS, [.assignAttempt attempt roleId])
    else if attempt = maxRetries then
      (.MAX_RETRIES_EXCEEDED, [.assignAttempt attempt roleId])
    else
      let r := retryGo assignOk roleId maxRetries (attempt + 1) fuel
      (r.1, .assignAttempt attempt roleId :: .sleep (1000 * attempt) :: r.2)

/-- `ChangeUserRoleService.updateAzureADWithRetry` for a given role scope id
(already looked up through `roleIdMap`): at most `maxRetries` attempts,
linear backoff between attempts, returning the retry status and the event
trace. -/
def updateAzureADWithRetry (assignOk : Nat → Bool) (roleId : Option String)
    (maxRetries : Nat) : AzureADRetryStatus × List Event :=
  retryGo assignOk roleId maxRetries 1 maxRetries

/-- Modelled from the spec: the Local Role Store (the `userService` module
with `getUserByEmail`, `upsertUserRole`, `deleteUserByEmail` is not under
src/; only its callers are).  The store maps an email to at most one
principal, per the spec's unique-email data model. -/
def Store : Type := String → Option User

/-- Modelled from the spec: `findByEmail(email) -> Principal | None`. -/
def getUserByEmail (s : Store) (email : String) : Option User := s email

/-- Modelled from the spec: `upsertRole(email, directoryId, displayName,
role) -> Principal` creates the principal if absent, else updates its
`role`; idempotent.  Returns the resulting principal and the new store. -/
def upsertUserRole (s : Store) (email azureAdObjectId displayName : String)
    (role : Option UserRole) : User × Store :=
  match s email with
  | some u =>
    let u' : User := { u with role := role }
    (u', fun e => if e = email then some u' else s e)
  | none =>
    let u : User := ⟨email, azureAdObjectId, email, displayName, role⟩
    (u, fun e => if e = email then some u else s e)

/-- Modelled from the spec: `removePrincipal(email) -> void`, idempotent. -/
def deleteUserByEmail (s : Store) (email : String) : Store :=
  fun e => if e = email then none else s e

/-- `AuditAction` from `auditService.ts` (the actions this engine uses). -/
inductive AuditAction
  | CREATE
  | UPDATE
  | DELETE
  | ROLE_CHANGE
deriving DecidableEq, Repr

/-- The argument of `logAudit`: `dataBefore` and `dataAfter` distinguish an
omitted property (`none`, TS `undefined`) from an explicit null
(`some none`). -/
structure AuditEntry where
  entityId : String
  action : AuditAction
  changedById : String
  dataBefore : Option (Option User)
  dataAfter : Option (Option User)
deriving DecidableEq, Repr

/-- A stored `AuditLog` row: `dataBefore` / `dataAfter` are nullable JSON
columns, so both an omitted property and `Prisma.JsonNull` end up NULL. -/
structure AuditRecord where
  entityId : String
  action : AuditAction
  changedById : String
  dataBefore : Option User
  dataAfter : Option User
deriving DecidableEq, Repr

/-- How `logAudit` maps its optional snapshot argument onto the stored
column: an omitted property is left unset (NULL), an explicit `null` is
written as `Prisma.JsonNull` (also NULL), a value is stored as given. -/
def auditStored : Option (Option User) → Option User
  | none => none
  | some none => none
  | some (some u) => some u

/-- `auditService.logAudit`: builds the row and writes it with
`prisma.auditLog.create` — there is no catch, so a failing write throws. -/
def logAudit (e : AuditEntry) : AuditRecord :=
  ⟨e.entityId, e.action, e.changedById, auditStored e.dataBefore,
   auditStored e.dataAfter⟩

/-- Outcomes of the collaborator calls a `changeUserRole` run makes, fixed
up front: the resolved directory id of the target (`none` when
`UserSyncService.validateUserExists` throws), success of the token and
service-principal lookups, the display name Graph returns, the per-attempt
success of `assignAppRoleToPrincipal`, and success of the audit write and
of `setUserOffline`. -/
structure Env where
  adId : Option String
  tokenOk : Bool
  spOk : Bool
  displayName : String
  assignOk : Nat → Bool
  auditOk : Bool
  offlineOk : Bool

/-- `ChangeUserRoleResult` from `changeUserRoleService.ts`.  The optional
`previousRole` is `targetUser?.role`; `newRole` is set, possibly to null,
on every return path. -/
structure ChangeUserRoleResult where
  message : String
  status : ChangeUserRoleStatus
  userEmail : String
  previousRole : Option UserRole
  newRole : Option UserRole
  azureADUpdated : Bool
  rollbackRequired : Bool
deriving DecidableEq, Repr

/-- A raised error: `expected` is a thrown `ExpectedError`, `raw` a plain
`Error` escaping the service uncaught. -/
inductive RunError
  | expected (e : ExpectedError)
  | raw (message : String)
deriving DecidableEq, Repr

/-- The `if (targetUser) { ... }` validation block of
`ChangeUserRoleService.changeUserRole`: when the target exists locally, run
`validateNotSuperAdminChange`, `validateCallerPermissions` and
`validateRoleChange` in that order; when it does not, no target validation
runs. -/
def validateTarget (currentUser : User) (targetUser : Option User)
    (newRole : Option UserRole) : Except ExpectedError Unit :=
  match targetUser with
  | some t =>
    (validateNotSuperAdminChange t).bind fun _ =>
    (validateCallerPermissions currentUser.role t.role newRole).bind fun _ =>
    validateRoleChange t.role newRole
  | none => .ok ()

/-- Everything observable about one `changeUserRole` run: its
returned-or-thrown outcome, the ordered event trace, the final local store,
the final directory state and the audit rows written. -/
structure RunOut where
  result : Except RunError ChangeUserRoleResult
  trace : List Event
  store : Store
  dir : Directory
  audits : List AuditRecord

/-- `ChangeUserRoleService.changeUserRole`, transcribed step by step:
validations, target lookup, directory resolution, token and service
principal acquisition, clearing of directory grants, the removal branch,
the local upsert, the bounded-retry directory assignment, the compensating
rollback, the audit write and the presence invalidation. -/
def changeUserRole (cfg : RoleScopeConfig) (env : Env) (dir : Directory)
    (store : Store) (userEmail : String) (newRole : Option UserRole)
    (currentUser : User) : RunOut :=
  match validateNotSelfChange currentUser userEmail with
  | .error e => ⟨.error (.expected e), [], store, dir, []⟩
  | .ok _ =>
  match validateSupervisorRoleAssignment currentUser.role newRole with
  | .error e => ⟨.error (.expected e), [], store, dir, []⟩
  | .ok _ =>
  let targetUser := getUserByEmail store userEmail
  let tr0 : List Event := [.storeRead userEmail]
  match validateTarget currentUser targetUser newRole with
  | .error e => ⟨.error (.expected e), tr0, store, dir, []⟩
  | .ok _ =>
  match env.adId with
  | none =>
    ⟨.error (.raw ("User " ++ userEmail ++ " not found in Azure AD")),
     tr0 ++ [.graphResolve userEmail], store, dir, []⟩
  | some targetAdId =>
  let tr1 := tr0 ++ [.graphResolve userEmail]
  if env.tokenOk = false then
    ⟨.error (.raw "Failed to acquire Graph token"), tr1, store, dir, []⟩
  else if env.spOk = false then
    ⟨.error (.raw "Error fetching servicePrincipal"), tr1, store, dir, []⟩
  else
  let cleared := removeAllAppRolesFromPrincipalOnSp dir targetAdId
  let tr2 := tr1 ++ [.clearGrants targetAdId]
  match cleared.1 with
  | .error m => ⟨.error (.raw m), tr2, store, cleared.2, []⟩
  | .ok _ =>
  match newRole with
  | none =>
    match targetUser with
    | some t =>
      let store1 := deleteUserByEmail store userEmail
      let tr3 := tr2 ++ [.storeDelete userEmail]
      if env.auditOk then
        ⟨.ok ⟨USER_DELETED_SUCCESSFULLY, .SUCCESS, userEmail, t.role, none,
              true, false⟩,
         tr3 ++ [.auditWrite], store1, cleared.2,
         [logAudit ⟨t.id, .DELETE, currentUser.id, some (some t), none⟩]⟩
      else
        ⟨.error (.raw "audit write failed"), tr3 ++ [.auditWrite], store1,
         cleared.2, []⟩
    | none =>
      ⟨.ok ⟨USER_DELETED_SUCCESSFULLY, .SUCCESS, userEmail, none, none,
            true, false⟩,
       tr2, store, cleared.2, []⟩
  | some r =>
    let up := upsertUserRole store userEmail targetAdId env.displayName (some r)
    let tr3 := tr2 ++ [.storeUpsert userEmail (some r)]
    let retry := updateAzureADWithRetry env.assignOk (roleIdMap cfg r) 2
    let tr4 := tr3 ++ retry.2
    if retry.1 = .MAX_RETRIES_EXCEEDED then
      match targetUser with
      | some t =>
        let up2 := upsertUserRole up.2 userEmail targetAdId env.displayName t.role
        ⟨.ok ⟨AZURE_AD_UPDATE_FAILED, .ROLLBACK_REQUIRED, userEmail, t.role,
              some r, false, true⟩,
         tr4 ++ [.storeUpsert userEmail t.role], up2.2, cleared.2, []⟩
      | none =>
        let store2 := deleteUserByEmail up.2 userEmail
        ⟨.ok ⟨AZURE_AD_UPDATE_FAILED, .ROLLBACK_REQUIRED, userEmail, none,
              some r, false, true⟩,
         tr4 ++ [.storeDelete userEmail], store2, cleared.2, []⟩
    else
      if env.auditOk then
        let rec1 := logAudit ⟨up.1.id, .ROLE_CHANGE, currentUser.id,
                              some targetUser, some (some up.1)⟩
        let tr5 := tr4 ++ [.auditWrite]
        if env.offlineOk then
          ⟨.ok ⟨ROLE_CHANGED_SUCCESSFULLY, .SUCCESS, userEmail,
                targetUser.bind (·.role), some r, true, false⟩,
           tr5 ++ [.presenceOffline userEmail], up.2, cleared.2, [rec1]⟩
        else
          ⟨.error (.raw "setUserOffline failed"),
           tr5 ++ [.presenceOffline userEmail], up.2, cleared.2, [rec1]⟩
      else
        ⟨.error (.raw "audit write failed"), tr4 ++ [.auditWrite], up.2,
         cleared.2, []⟩

/-! Concrete fixtures used to instantiate the theorems. -/

/-- A Supervisor principal. -/
def supSample : User := ⟨"u1", "ad1", "s@x.com", "Sup", some .Supervisor⟩

/-- A SuperAdmin principal. -/
def superSample : User := ⟨"u2", "ad2", "root@x.com", "Root", some .SuperAdmin⟩

/-- An Admin principal. -/
def admSample : User := ⟨"u3", "ad3", "adm@x.com", "Adm", some .Admin⟩

/-- An Employee principal. -/
def empSample : User := ⟨"u4", "ad4", "e@x.com", "Emp", some .Employee⟩

/-- A store holding the Employee and the SuperAdmin. -/
def storeSample : Store := fun e =>
  if e = "e@x.com" then some empSample
  else if e = "root@x.com" then some superSample
  else none

/-- A directory with one grant for the Employee; all DELETE calls succeed. -/
def dirSample : Directory := ⟨[[⟨"as1", "ad4", "rid"⟩]], fun _ => false⟩

/-- A role-scope configuration. -/
def cfgSample : RoleScopeConfig := ⟨"sg", "ag", "eg", "cg"⟩

/-- An environment in which every collaborator call succeeds. -/
def envAllOk : Env := ⟨some "ad4", true, true, "Emp", fun _ => true, true, true⟩

/-- An environment in which every directory grant assignment fails and
everything else succeeds. -/
def envAssignFails : Env := ⟨some "ad4", true, true, "Emp", fun _ => false, true, true⟩

/-! Helper lemmas shared by several proofs. -/

/-- Closed form of `updateAzureADWithRetry` at the ceiling of 2 the engine
passes. -/
theorem retry_two_eq (assignOk : Nat → Bool) (roleId : Option String) :
    updateAzureADWithRetry assignOk roleId 2 =
      if assignOk 1 then (.SUCCESS, [.assignAttempt 1 roleId])
      else if assignOk 2 then
        (.SUCCESS,
         [.assignAttempt 1 roleId, .sleep 1000, .assignAttempt 2 roleId])
      else
        (.MAX_RETRIES_EXCEEDED,
         [.assignAttempt 1 roleId, .sleep 1000, .assignAttempt 2 roleId]) := by
  by_cases h1 : assignOk 1 <;> by_cases h2 : assignOk 2 <;>
    simp [updateAzureADWithRetry, retryGo, h1, h2]

/-! The claims. -/

/-- Claim C7: the directory grant assignment is attempted at most 2 times
(the fixed retry ceiling); between consecutive attempts the engine waits
attempt-index times 1000 ms (linear backoff), with no wait after the final
attempt; it reports success as soon as one attempt succeeds and reports
MAX_RETRIES_EXCEEDED exactly when all attempts fail. -/
theorem C7_retry_ceiling_and_backoff (assignOk : Nat → Bool)
    (roleId : Option String) :
    updateAzureADWithRetry assignOk roleId 2 =
      if assignOk 1 then (.SUCCESS, [.assignAttempt 1 roleId])
      else if assignOk 2 then
        (.SUCCESS,
         [.assignAttempt 1 roleId, .sleep 1000, .assignAttempt 2 roleId])
      else
        (.MAX_RETRIES_EXCEEDED,
         [.assignAttempt 1 roleId, .sleep 1000, .assignAttempt 2 roleId]) := by
  by_cases h1 : assignOk 1 <;> by_cases h2 : assignOk 2 <;>
    simp [updateAzureADWithRetry, retryGo, h1, h2]

/-- Claim C1: when the operation passes validation, resolves the directory
identity, clears grants, updates the local store, and then every directory
grant-assignment attempt fails up to the retry ceiling, the engine restores
the local store to its exact prior state (re-applying the previous role, or
deleting a freshly created principal) and returns ROLLBACK_REQUIRED with
azureADUpdated = false, rollbackRequired = true and previousRole equal to
the prior role. -/
theorem C1_rollback_restores_prior_state
    (cfg : RoleScopeConfig) (env : Env) (dir : Directory) (store : Store)
    (email : String) (r : UserRole) (currentUser : User) (adId : String)
    (hSelf : validateNotSelfChange currentUser email = .ok ())
    (hSup : validateSupervisorRoleAssignment currentUser.role (some r) = .ok ())
    (hTgt : validateTarget currentUser (getUserByEmail store email) (some r) = .ok ())
    (hAd : env.adId = some adId)
    (hTok : env.tokenOk = true)
    (hSp : env.spOk = true)
    (hClear : (clearPages dir.deleteFails adId dir.pages).2.2 = false)
    (hA1 : env.assignOk 1 = false)
    (hA2 : env.assignOk 2 = false) :
    (changeUserRole cfg env dir store email (some r) currentUser).result =
      .ok ⟨AZURE_AD_UPDATE_FAILED, .ROLLBACK_REQUIRED, email,
           (getUserByEmail store email).bind (fun t => t.role), some r,
           false, true⟩ ∧
    ∀ e, getUserByEmail
        (changeUserRole cfg env dir store email (some r) currentUser).store e =
      getUserByEmail store e := by
  have hretry : updateAzureADWithRetry env.assignOk (roleIdMap cfg r) 2 =
      (.MAX_RETRIES_EXCEEDED,
       [.assignAttempt 1 (roleIdMap cfg r), .sleep 1000,
        .assignAttempt 2 (roleIdMap cfg r)]) := by
    rw [retry_two_eq, hA1, hA2]; simp
  cases hT : getUserByEmail store email with
  | none =>
    rw [hT] at hTgt
    constructor
    · simp [changeUserRole, hSelf, hSup, hTgt, hT, hAd, hTok, hSp,
        removeAllAppRolesFromPrincipalOnSp, hClear, hretry]
    · intro e
      simp only [changeUserRole, hSelf, hSup, hTgt, hT, hAd, hTok, hSp,
        removeAllAppRolesFromPrincipalOnSp, hClear, hretry]
      have hT' := hT
      simp only [getUserByEmail] at hT'
      by_cases he : e = email <;>
        simp [upsertUserRole, deleteUserByEmail, getUserByEmail, he, hT, hT']
  | some t =>
    rw [hT] at hTgt
    constructor
    · simp [changeUserRole, hSelf, hSup, hTgt, hT, hAd, hTok, hSp,
        removeAllAppRolesFromPrincipalOnSp, hClear, hretry]
    · intro e
      simp only [changeUserRole, hSelf, hSup, hTgt, hT, hAd, hTok, hSp,
        removeAllAppRolesFromPrincipalOnSp, hClear, hretry]
      have hT' := hT
      simp only [getUserByEmail] at hT'
      by_cases he : e = email <;>
        simp [upsertUserRole, deleteUserByEmail, getUserByEmail, he, hT, hT']

/-- Witness for C1 at a concrete input: an Admin promotes the Employee to
Admin, both assignment attempts fail, the Employee role is restored and the
run reports ROLLBACK_REQUIRED. -/
theorem C1_rollback_restores_prior_state_witness :
    (changeUserRole cfgSample envAssignFails dirSample storeSample
        "e@x.com" (some .Admin) admSample).result =
      .ok ⟨AZURE_AD_UPDATE_FAILED, .ROLLBACK_REQUIRED, "e@x.com",
           some .Employee, some .Admin, false, true⟩ ∧
    ∀ e, getUserByEmail
        (changeUserRole cfgSample envAssignFails dirSample storeSample
            "e@x.com" (some .Admin) admSample).store e =
      getUserByEmail storeSample e := by
  have h := C1_rollback_restores_prior_state cfgSample envAssignFails
    dirSample storeSample "e@x.com" .Admin admSample "ad4"
    rfl rfl rfl rfl rfl rfl rfl rfl rfl
  exact ⟨by rw [h.1]; rfl, h.2⟩

/-- An Admin principal with a lower-case email, for case-sensitivity tests. -/
def admLower : User := ⟨"u5", "ad5", "a@x.com", "A", some .Admin⟩

/-- The empty local store. -/
def emptyStore : Store := fun _ => none

/-- A store holding only the Admin principal. -/
def storeAdmOnly : Store := fun e => if e = "adm@x.com" then some admSample else none

/-- An environment whose directory identity resolution fails. -/
def envNoAd : Env := ⟨none, true, true, "", fun _ => true, true, true⟩

/-- Counterexample to claim C3 as stated: a Supervisor actor requesting the
Admin role for a target whose current local role is SuperAdmin is denied
with SUPERVISOR_LIMITED_ACCESS (the supervisor-scope check runs before the
target lookup), not with CANNOT_CHANGE_SUPERADMIN. -/
theorem C3_counterexample :
    getUserByEmail storeSample "root@x.com" = some superSample ∧
    superSample.role = some .SuperAdmin ∧
    (changeUserRole cfgSample envAllOk dirSample storeSample "root@x.com"
        (some .Admin) supSample).result =
      .error (.expected ⟨SUPERVISOR_LIMITED_ACCESS, 403⟩) ∧
    ExpectedError.mk SUPERVISOR_LIMITED_ACCESS 403 ≠
      ExpectedError.mk CANNOT_CHANGE_SUPERADMIN 400 := by
  refine ⟨rfl, rfl, rfl, by decide⟩

/-- Claim C3 amended: if the request passes the self-change and
supervisor-scope checks (which the code runs first), and the target exists
locally with current role SuperAdmin, the operation is denied with
CANNOT_CHANGE_SUPERADMIN and neither the store nor the audit log is
touched. -/
theorem C3_superadmin_protected
    (cfg : RoleScopeConfig) (env : Env) (dir : Directory) (store : Store)
    (email : String) (newRole : Option UserRole) (currentUser : User) (t : User)
    (hSelf : validateNotSelfChange currentUser email = .ok ())
    (hSup : validateSupervisorRoleAssignment currentUser.role newRole = .ok ())
    (hT : getUserByEmail store email = some t)
    (hRole : t.role = some .SuperAdmin) :
    (changeUserRole cfg env dir store email newRole currentUser).result =
      .error (.expected ⟨CANNOT_CHANGE_SUPERADMIN, 400⟩) ∧
    (∀ e, (changeUserRole cfg env dir store email newRole currentUser).store e =
      store e) ∧
    (changeUserRole cfg env dir store email newRole currentUser).audits = [] := by
  refine ⟨?_, ?_, ?_⟩ <;>
    simp [changeUserRole, hSelf, hSup, hT, validateTarget,
      validateNotSuperAdminChange, hRole, Except.bind]

/-- Witness for C3 amended: an Admin actor requesting Admin for the local
SuperAdmin is denied with CANNOT_CHANGE_SUPERADMIN. -/
theorem C3_superadmin_protected_witness :
    (changeUserRole cfgSample envAllOk dirSample storeSample "root@x.com"
        (some .Admin) admSample).result =
      .error (.expected ⟨CANNOT_CHANGE_SUPERADMIN, 400⟩) := by
  exact (C3_superadmin_protected cfgSample envAllOk dirSample storeSample
    "root@x.com" (some .Admin) admSample superSample rfl rfl rfl rfl).1

/-- Counterexample to claim C4 as stated: the self-change guard compares
emails with exact (case-sensitive) equality, so an actor targeting their own
email in different case is NOT denied as a self-change, and a local-store
read does occur. -/
theorem C4_counterexample :
    admLower.email.data.map Char.toLower = "A@x.com".data.map Char.toLower ∧
    admLower.email ≠ "A@x.com" ∧
    (changeUserRole cfgSample envNoAd dirSample emptyStore "A@x.com"
        (some .Employee) admLower).result =
      .error (.raw "User A@x.com not found in Azure AD") ∧
    (changeUserRole cfgSample envNoAd dirSample emptyStore "A@x.com"
        (some .Employee) admLower).trace =
      [.storeRead "A@x.com", .graphResolve "A@x.com"] := by
  refine ⟨by decide, by decide, rfl, rfl⟩

/-- Claim C4 amended: when the target email is exactly (case-sensitively)
equal to the actor's own email, the operation returns
Denied(CANNOT_CHANGE_OWN_ROLE) with an empty event trace — so before any
local-store read or mutation and before any directory call — leaving store
and audit log untouched. -/
theorem C4_self_change_denied
    (cfg : RoleScopeConfig) (env : Env) (dir : Directory) (store : Store)
    (email : String) (newRole : Option UserRole) (currentUser : User)
    (hEq : currentUser.email = email) :
    (changeUserRole cfg env dir store email newRole currentUser).result =
      .error (.expected ⟨CANNOT_CHANGE_OWN_ROLE, 400⟩) ∧
    (changeUserRole cfg env dir store email newRole currentUser).trace = [] ∧
    (∀ e, (changeUserRole cfg env dir store email newRole currentUser).store e =
      store e) ∧
    (changeUserRole cfg env dir store email newRole currentUser).audits = [] := by
  refine ⟨?_, ?_, ?_, ?_⟩ <;>
    simp [changeUserRole, validateNotSelfChange, hEq]

/-- Witness for C4 amended: the Admin targets their own email. -/
theorem C4_self_change_denied_witness :
    (changeUserRole cfgSample envAllOk dirSample storeSample "adm@x.com"
        (some .Employee) admSample).result =
      .error (.expected ⟨CANNOT_CHANGE_OWN_ROLE, 400⟩) ∧
    (changeUserRole cfgSample envAllOk dirSample storeSample "adm@x.com"
        (some .Employee) admSample).trace = [] := by
  have h := C4_self_change_denied cfgSample envAllOk dirSample storeSample
    "adm@x.com" (some .Employee) admSample rfl
  exact ⟨h.1, h.2.1⟩

/-- Counterexample to claim C8 as stated: a Supervisor actor requesting a
non-Employee role for their own email is denied with
CANNOT_CHANGE_OWN_ROLE (the self-change check runs first), not with
SUPERVISOR_LIMITED_ACCESS. -/
theorem C8_counterexample :
    supSample.role = some .Supervisor ∧
    (changeUserRole cfgSample envAllOk dirSample storeSample "s@x.com"
        (some .Admin) supSample).result =
      .error (.expected ⟨CANNOT_CHANGE_OWN_ROLE, 400⟩) ∧
    ExpectedError.mk CANNOT_CHANGE_OWN_ROLE 400 ≠
      ExpectedError.mk SUPERVISOR_LIMITED_ACCESS 403 := by
  refine ⟨rfl, rfl, by decide⟩

/-- Claim C8 amended: for a Supervisor actor whose email differs from the
target email, every requested role other than Employee (including the null
removal sentinel) is denied with SUPERVISOR_LIMITED_ACCESS before any store
access; with requestedRole = Employee the operation proceeds regardless of
the target's current non-SuperAdmin role — in particular a Supervisor may
demote an Admin to Employee. -/
theorem C8_supervisor_scope
    (cfg : RoleScopeConfig) (env : Env) (dir : Directory) (store : Store)
    (email : String) (currentUser : User)
    (hRole : currentUser.role = some .Supervisor)
    (hneq : currentUser.email ≠ email) :
    (∀ newRole, newRole ≠ some .Employee →
      (changeUserRole cfg env dir store email newRole currentUser).result =
        .error (.expected ⟨SUPERVISOR_LIMITED_ACCESS, 403⟩) ∧
      (changeUserRole cfg env dir store email newRole currentUser).trace = []) ∧
    (∀ t adId, getUserByEmail store email = some t → t.role = some .Admin →
      env.adId = some adId → env.tokenOk = true → env.spOk = true →
      (clearPages dir.deleteFails adId dir.pages).2.2 = false →
      env.assignOk 1 = true → env.auditOk = true → env.offlineOk = true →
      (changeUserRole cfg env dir store email (some .Employee)
          currentUser).result =
        .ok ⟨ROLE_CHANGED_SUCCESSFULLY, .SUCCESS, email, some .Admin,
             some .Employee, true, false⟩) := by
  constructor
  · intro newRole hnr
    constructor <;>
      simp [changeUserRole, validateNotSelfChange, hneq,
        validateSupervisorRoleAssignment, hRole, hnr]
  · intro t adId hT hAdm hAd hTok hSp hClear hA1 hAudit hOff
    have hretry : updateAzureADWithRetry env.assignOk
        (roleIdMap cfg .Employee) 2 =
        (.SUCCESS, [.assignAttempt 1 (roleIdMap cfg .Employee)]) := by
      rw [retry_two_eq, hA1]; simp
    simp [changeUserRole, validateNotSelfChange, hneq,
      validateSupervisorRoleAssignment, hRole, hT, validateTarget,
      validateNotSuperAdminChange, validateCallerPermissions,
      validateRoleChange, hAdm, hAd, hTok, hSp,
      removeAllAppRolesFromPrincipalOnSp, hClear, hretry, hAudit, hOff,
      Except.bind]

/-- Witness for C8 amended: the Supervisor is denied the removal sentinel
for the Employee target, and successfully demotes the Admin to Employee. -/
theorem C8_supervisor_scope_witness :
    ((changeUserRole cfgSample envAllOk dirSample storeSample "e@x.com"
        none supSample).result =
      .error (.expected ⟨SUPERVISOR_LIMITED_ACCESS, 403⟩)) ∧
    ((changeUserRole cfgSample ⟨some "ad3", true, true, "Adm", fun _ => true,
        true, true⟩ dirSample storeAdmOnly "adm@x.com" (some .Employee)
        supSample).result =
      .ok ⟨ROLE_CHANGED_SUCCESSFULLY, .SUCCESS, "adm@x.com", some .Admin,
           some .Employee, true, false⟩) := by
  have h1 := (C8_supervisor_scope cfgSample envAllOk dirSample storeSample
    "e@x.com" supSample rfl (by decide)).1 none (by decide)
  have h2 := (C8_supervisor_scope cfgSample ⟨some "ad3", true, true, "Adm",
    fun _ => true, true, true⟩ dirSample storeAdmOnly "adm@x.com" supSample
    rfl (by decide)).2 admSample "ad3" rfl rfl rfl rfl rfl rfl rfl rfl rfl
  exact ⟨h1.1, h2⟩

/-- An environment where everything succeeds except the audit write. -/
def envAuditFails : Env := ⟨some "ad4", true, true, "Emp", fun _ => true, false, true⟩

/-- Claim C2 evidence (code bug): after a fully successful synchronization
(grants cleared, local store updated, directory grant assigned on the first
attempt), a failing audit write escapes `changeUserRole` as a raw
exception — the run does not return the Committed result even though the
local store holds the new role — while the identical run with a working
audit store returns Committed.  The same applies to a failing
`setUserOffline`. -/
theorem C2_post_mutation_failure_escapes_raw :
    (changeUserRole cfgSample envAuditFails dirSample storeSample "e@x.com"
        (some .Admin) admSample).result = .error (.raw "audit write failed") ∧
    getUserByEmail (changeUserRole cfgSample envAuditFails dirSample
        storeSample "e@x.com" (some .Admin) admSample).store "e@x.com" =
      some ⟨"u4", "ad4", "e@x.com", "Emp", some .Admin⟩ ∧
    (changeUserRole cfgSample envAuditFails dirSample storeSample "e@x.com"
        (some .Admin) admSample).audits = [] ∧
    (changeUserRole cfgSample envAllOk dirSample storeSample "e@x.com"
        (some .Admin) admSample).result =
      .ok ⟨ROLE_CHANGED_SUCCESSFULLY, .SUCCESS, "e@x.com", some .Employee,
           some .Admin, true, false⟩ ∧
    (changeUserRole cfgSample ⟨some "ad4", true, true, "Emp", fun _ => true,
        true, false⟩ dirSample storeSample "e@x.com" (some .Admin)
        admSample).result = .error (.raw "setUserOffline failed") := by
  exact ⟨rfl, rfl, rfl, rfl, rfl⟩

/-- Counterexample to claim C5 as stated: a removal whose target has no
local principal returns the success (removal) outcome but writes zero audit
entries, not exactly one. -/
theorem C5_counterexample :
    getUserByEmail storeSample "ghost@x.com" = none ∧
    (changeUserRole cfgSample ⟨some "adX", true, true, "", fun _ => true,
        true, true⟩ dirSample storeSample "ghost@x.com" none admSample).result =
      .ok ⟨USER_DELETED_SUCCESSFULLY, .SUCCESS, "ghost@x.com", none, none,
           true, false⟩ ∧
    (changeUserRole cfgSample ⟨some "adX", true, true, "", fun _ => true,
        true, true⟩ dirSample storeSample "ghost@x.com" none
        admSample).audits = [] := by
  exact ⟨rfl, rfl, rfl⟩

/-- Claim C5 amended: every Committed role change writes exactly one
ROLE_CHANGE audit entry with dataBefore the prior snapshot (null when the
principal did not previously exist) and dataAfter the updated principal;
every removal of an EXISTING principal writes exactly one DELETE entry with
dataBefore the prior snapshot and null dataAfter; a removal whose target
has no local principal writes no audit entry at all. -/
theorem C5_audit_completeness
    (cfg : RoleScopeConfig) (env : Env) (dir : Directory) (store : Store)
    (email : String) (currentUser : User) (adId : String)
    (hAd : env.adId = some adId)
    (hTok : env.tokenOk = true)
    (hSp : env.spOk = true)
    (hClear : (clearPages dir.deleteFails adId dir.pages).2.2 = false)
    (hAudit : env.auditOk = true) :
    (∀ t, validateNotSelfChange currentUser email = .ok () →
      validateSupervisorRoleAssignment currentUser.role none = .ok () →
      getUserByEmail store email = some t →
      validateTarget currentUser (some t) none = .ok () →
      (changeUserRole cfg env dir store email none currentUser).audits =
        [⟨t.id, .DELETE, currentUser.id, some t, none⟩] ∧
      (changeUserRole cfg env dir store email none currentUser).result =
        .ok ⟨USER_DELETED_SUCCESSFULLY, .SUCCESS, email, t.role, none,
             true, false⟩) ∧
    (validateNotSelfChange currentUser email = .ok () →
      validateSupervisorRoleAssignment currentUser.role none = .ok () →
      getUserByEmail store email = none →
      (changeUserRole cfg env dir store email none currentUser).audits = [] ∧
      (changeUserRole cfg env dir store email none currentUser).result =
        .ok ⟨USER_DELETED_SUCCESSFULLY, .SUCCESS, email, none, none,
             true, false⟩) ∧
    (∀ r, validateNotSelfChange currentUser email = .ok () →
      validateSupervisorRoleAssignment currentUser.role (some r) = .ok () →
      validateTarget currentUser (getUserByEmail store email) (some r) = .ok () →
      (updateAzureADWithRetry env.assignOk (roleIdMap cfg r) 2).1 ≠
        .MAX_RETRIES_EXCEEDED →
      env.offlineOk = true →
      (changeUserRole cfg env dir store email (some r) currentUser).audits =
        [⟨(upsertUserRole store email adId env.displayName (some r)).1.id,
          .ROLE_CHANGE, currentUser.id, getUserByEmail store email,
          some (upsertUserRole store email adId env.displayName (some r)).1⟩] ∧
      (changeUserRole cfg env dir store email (some r) currentUser).result =
        .ok ⟨ROLE_CHANGED_SUCCESSFULLY, .SUCCESS, email,
             (getUserByEmail store email).bind (fun t => t.role), some r,
             true, false⟩) := by
  refine ⟨?_, ?_, ?_⟩
  · intro t hSelf hSup hT hTgt
    constructor <;>
      simp [changeUserRole, hSelf, hSup, hT, hTgt, hAd, hTok, hSp,
        removeAllAppRolesFromPrincipalOnSp, hClear, hAudit, logAudit,
        auditStored]
  · intro hSelf hSup hT
    constructor <;>
      simp [changeUserRole, hSelf, hSup, hT, validateTarget, hAd, hTok, hSp,
        removeAllAppRolesFromPrincipalOnSp, hClear, hAudit]
  · intro r hSelf hSup hTgt hRetry hOff
    cases hT : getUserByEmail store email with
    | none =>
      rw [hT] at hTgt
      have hT' := hT
      simp only [getUserByEmail] at hT'
      constructor <;>
        simp [changeUserRole, hSelf, hSup, hT, hTgt, hAd, hTok, hSp,
          removeAllAppRolesFromPrincipalOnSp, hClear, hRetry, hAudit, hOff,
          logAudit, auditStored, upsertUserRole, hT']
    | some t =>
      rw [hT] at hTgt
      have hT' := hT
      simp only [getUserByEmail] at hT'
      constructor <;>
        simp [changeUserRole, hSelf, hSup, hT, hTgt, hAd, hTok, hSp,
          removeAllAppRolesFromPrincipalOnSp, hClear, hRetry, hAudit, hOff,
          logAudit, auditStored, upsertUserRole, hT']

/-- Witness for C5 amended, covering all three clauses: deleting the
existing Employee writes one DELETE entry with null dataAfter; deleting an
absent principal writes none; promoting the Employee writes one ROLE_CHANGE
entry with the before and after snapshots — both when the directory grant
lands on the first attempt and when it lands only on the second. -/
theorem C5_audit_completeness_witness :
    (changeUserRole cfgSample envAllOk dirSample storeSample "e@x.com" none
        admSample).audits =
      [⟨"u4", .DELETE, "u3", some empSample, none⟩] ∧
    (changeUserRole cfgSample ⟨some "ad4", true, true, "Emp", fun _ => true,
        true, true⟩ dirSample emptyStore "ghost@x.com" none
        admSample).audits = [] ∧
    (changeUserRole cfgSample envAllOk dirSample storeSample "e@x.com"
        (some .Admin) admSample).audits =
      [⟨"u4", .ROLE_CHANGE, "u3", some empSample,
        some ⟨"u4", "ad4", "e@x.com", "Emp", some .Admin⟩⟩] ∧
    (changeUserRole cfgSample ⟨some "ad4", true, true, "Emp",
        fun i => i == 2, true, true⟩ dirSample storeSample "e@x.com"
        (some .Admin) admSample).audits =
      [⟨"u4", .ROLE_CHANGE, "u3", some empSample,
        some ⟨"u4", "ad4", "e@x.com", "Emp", some .Admin⟩⟩] := by
  have h1 := (C5_audit_completeness cfgSample envAllOk dirSample storeSample
    "e@x.com" admSample "ad4" rfl rfl rfl rfl rfl).1 empSample rfl rfl rfl rfl
  have h2 := (C5_audit_completeness cfgSample ⟨some "ad4", true, true, "Emp",
    fun _ => true, true, true⟩ dirSample emptyStore "ghost@x.com" admSample
    "ad4" rfl rfl rfl rfl rfl).2.1 rfl rfl rfl
  have h3 := (C5_audit_completeness cfgSample envAllOk dirSample storeSample
    "e@x.com" admSample "ad4" rfl rfl rfl rfl rfl).2.2 .Admin rfl rfl rfl
    (by decide) rfl
  have h4 := (C5_audit_completeness cfgSample ⟨some "ad4", true, true, "Emp",
    fun i => i == 2, true, true⟩ dirSample storeSample "e@x.com" admSample
    "ad4" rfl rfl rfl rfl rfl).2.2 .Admin rfl rfl rfl (by decide) rfl
  exact ⟨by rw [h1.1]; rfl, h2.1, by rw [h3.1]; rfl, by rw [h4.1]; rfl⟩

/-- A directory holding two grants for principal p, where deleting the
second fails. -/
def dirPartialFail : Directory :=
  ⟨[[⟨"a1", "p", "r"⟩, ⟨"a2", "p", "r"⟩]], fun i => i = "a2"⟩

/-- Counterexample to claim C6 as stated: when the clear-grants step fails
midway, the operation does abort with no local mutation, but the directory
is NOT byte-for-byte in its pre-operation state — the first grant was
already removed. -/
theorem C6_counterexample :
    (changeUserRole cfgSample ⟨some "p", true, true, "", fun _ => true,
        true, true⟩ dirPartialFail storeSample "e@x.com" (some .Admin)
        admSample).result = .error (.raw "Failed to delete appRoleAssignedTo") ∧
    (∀ e, (changeUserRole cfgSample ⟨some "p", true, true, "", fun _ => true,
        true, true⟩ dirPartialFail storeSample "e@x.com" (some .Admin)
        admSample).store e = storeSample e) ∧
    (changeUserRole cfgSample ⟨some "p", true, true, "", fun _ => true,
        true, true⟩ dirPartialFail storeSample "e@x.com" (some .Admin)
        admSample).dir.pages = [[⟨"a2", "p", "r"⟩]] ∧
    dirPartialFail.pages = [[⟨"a1", "p", "r"⟩, ⟨"a2", "p", "r"⟩]] := by
  exact ⟨rfl, fun e => rfl, rfl, rfl⟩

/-- Claim C6 amended: directory grants are cleared before any local-store
mutation; if the clear-grants step fails the operation aborts with the
local store untouched, no audit entry and no store event in the trace —
but the directory may already have had some grants removed (its state is
the partially cleared one, not necessarily the pre-operation one). -/
theorem C6_clear_grants_failure_aborts
    (cfg : RoleScopeConfig) (env : Env) (dir : Directory) (store : Store)
    (email : String) (newRole : Option UserRole) (currentUser : User)
    (adId : String)
    (hSelf : validateNotSelfChange currentUser email = .ok ())
    (hSup : validateSupervisorRoleAssignment currentUser.role newRole = .ok ())
    (hTgt : validateTarget currentUser (getUserByEmail store email) newRole = .ok ())
    (hAd : env.adId = some adId)
    (hTok : env.tokenOk = true)
    (hSp : env.spOk = true)
    (hClear : (clearPages dir.deleteFails adId dir.pages).2.2 = true) :
    (changeUserRole cfg env dir store email newRole currentUser).result =
      .error (.raw "Failed to delete appRoleAssignedTo") ∧
    (∀ e, (changeUserRole cfg env dir store email newRole currentUser).store e =
      store e) ∧
    (changeUserRole cfg env dir store email newRole currentUser).trace =
      [.storeRead email, .graphResolve email, .clearGrants adId] ∧
    (changeUserRole cfg env dir store email newRole currentUser).audits = [] ∧
    (changeUserRole cfg env dir store email newRole currentUser).dir.pages =
      (clearPages dir.deleteFails adId dir.pages).2.1 := by
  refine ⟨?_, ?_, ?_, ?_, ?_⟩ <;>
    simp [changeUserRole, hSelf, hSup, hTgt, hAd, hTok, hSp,
      removeAllAppRolesFromPrincipalOnSp, hClear]

/-- Witness for C6 amended at the two-grant directory with a failing second
DELETE. -/
theorem C6_clear_grants_failure_aborts_witness :
    (changeUserRole cfgSample ⟨some "p", true, true, "", fun _ => true,
        true, true⟩ dirPartialFail storeSample "e@x.com" (some .Supervisor)
        admSample).result = .error (.raw "Failed to delete appRoleAssignedTo") ∧
    (changeUserRole cfgSample ⟨some "p", true, true, "", fun _ => true,
        true, true⟩ dirPartialFail storeSample "e@x.com" (some .Supervisor)
        admSample).dir.pages = [[⟨"a2", "p", "r"⟩]] := by
  have h := C6_clear_grants_failure_aborts cfgSample ⟨some "p", true, true,
    "", fun _ => true, true, true⟩ dirPartialFail storeSample "e@x.com"
    (some .Supervisor) admSample "p" rfl rfl (by rfl) rfl rfl rfl rfl
  exact ⟨h.1, by rw [h.2.2.2.2]; rfl⟩

/-- If the inner clearing loop finished a page without a failing DELETE, no
assignment of the cleared principal remains in that page. -/
theorem clearAssignments_clean (fails : String → Bool) (pid : String) :
    ∀ l : List Assignment, (clearAssignments fails pid l).2.2 = false →
      ∀ a ∈ (clearAssignments fails pid l).2.1, a.principalId ≠ pid := by
  intro l
  induction l with
  | nil => simp [clearAssignments]
  | cons a rest ih =>
    intro hf b hb
    by_cases hp : a.principalId = pid
    · by_cases hd : fails a.id
      · simp [clearAssignments, hp, hd] at hf
      · simp only [clearAssignments, if_pos hp, if_neg hd] at hf hb
        exact ih hf b hb
    · simp only [clearAssignments, if_neg hp, List.mem_cons] at hf hb
      rcases hb with hb | hb
      · subst hb; exact hp
      · exact ih hf b hb

/-- If the page loop finished without a failing DELETE, no assignment of the
cleared principal remains in any page. -/
theorem clearPages_clean (fails : String → Bool) (pid : String) :
    ∀ pages, (clearPages fails pid pages).2.2 = false →
      ∀ p ∈ (clearPages fails pid pages).2.1, ∀ a ∈ p, a.principalId ≠ pid := by
  intro pages
  induction pages with
  | nil => simp [clearPages]
  | cons p ps ih =>
    intro hf q hq a ha
    by_cases hfp : (clearAssignments fails pid p).2.2 = true
    · simp [clearPages, hfp] at hf
    · simp only [clearPages, hfp, if_false, Bool.false_eq_true, if_neg,
        List.mem_cons] at hf hq
      rcases hq with hq | hq
      · subst hq
        exact clearAssignments_clean fails pid p
          (Bool.not_eq_true _ ▸ hfp :) a ha
      · exact ih hf q hq a ha

/-- Monotonicity of the deduplicating fold used by
`fetchAppRoleMemberIds`. -/
theorem mem_dedup_fold (x : String) :
    ∀ (l : List Assignment) (acc : List String), x ∈ acc →
      x ∈ l.foldl (fun acc a =>
        if a.principalId ∈ acc then acc else acc ++ [a.principalId]) acc := by
  intro l
  induction l with
  | nil => intro acc h; simpa using h
  | cons b rest ih =>
    intro acc h
    simp only [List.foldl_cons]
    by_cases hb : b.principalId ∈ acc
    · rw [if_pos hb]; exact ih acc h
    · rw [if_neg hb]; exact ih _ (List.mem_append_left _ h)

/-- Completeness of the deduplicating fold used by
`fetchAppRoleMemberIds`. -/
theorem mem_dedup_fold_of_mem (x : String) :
    ∀ (l : List Assignment) (acc : List String) (a : Assignment), a ∈ l →
      a.principalId = x →
      x ∈ l.foldl (fun acc a =>
        if a.principalId ∈ acc then acc else acc ++ [a.principalId]) acc := by
  intro l
  induction l with
  | nil => simp
  | cons b rest ih =>
    intro acc a ha hx
    simp only [List.mem_cons] at ha
    simp only [List.foldl_cons]
    rcases ha with ha | ha
    · subst ha
      by_cases hb : a.principalId ∈ acc
      · rw [if_pos hb]
        exact mem_dedup_fold x rest acc (hx ▸ hb)
      · rw [if_neg hb]
        exact mem_dedup_fold x rest _
          (hx ▸ List.mem_append_right _ (List.mem_singleton.mpr rfl))
    · exact ih _ a ha hx

/-- Counterexample to claim C9 as stated: the user-side clearing operation
`removeAllAppRolesFromUser` issues a single list request and does not
follow the continuation link, so with the matching assignments split over
two pages it reports success while the second-page assignment survives. -/
theorem C9_counterexample :
    (removeAllAppRolesFromUser (fun _ => false)
        [[⟨"a1", "p", "r"⟩], [⟨"a2", "p", "r"⟩]]).1 = .ok () ∧
    (removeAllAppRolesFromUser (fun _ => false)
        [[⟨"a1", "p", "r"⟩], [⟨"a2", "p", "r"⟩]]).2 =
      [[], [⟨"a2", "p", "r"⟩]] := by
  exact ⟨rfl, rfl⟩

/-- Claim C9 amended: the graph-service list operations
(`removeAllAppRolesFromPrincipalOnSp`, `fetchAppRoleMemberIds`) do follow
the continuation link until the result set is exhausted — a successful
clear leaves no grant of the principal on any page, and a fetch sees
matches on every page — but `UserRoleManagementService.removeAllAppRolesFromUser`
processes only the first page of the listing, leaving every later page
untouched. -/
theorem C9_pagination
    (dir : Directory) (pid : String) :
    (∀ n, (removeAllAppRolesFromPrincipalOnSp dir pid).1 = .ok n →
      ∀ p ∈ (removeAllAppRolesFromPrincipalOnSp dir pid).2.pages,
        ∀ a ∈ p, a.principalId ≠ pid) ∧
    (∀ (pages : List (List Assignment)) (rid : String)
        (p : List Assignment) (a : Assignment), p ∈ pages → a ∈ p →
      a.appRoleId = rid → a.principalId ∈ fetchAppRoleMemberIds pages rid) ∧
    (∀ (fails : String → Bool) (p : List Assignment)
        (ps : List (List Assignment)),
      (removeAllAppRolesFromUser fails (p :: ps)).2 =
        (deleteListedAssignments fails p).1 :: ps) := by
  refine ⟨?_, ?_, ?_⟩
  · intro n hok
    by_cases hb : (clearPages dir.deleteFails pid dir.pages).2.2 = true
    · simp [removeAllAppRolesFromPrincipalOnSp, hb] at hok
    · intro p hp a ha
      simp only [removeAllAppRolesFromPrincipalOnSp] at hp
      exact clearPages_clean dir.deleteFails pid dir.pages
        (Bool.not_eq_true _ ▸ hb :) p hp a ha
  · intro pages rid p a hp ha hrid
    have hmem : a ∈ pages.flatten.filter (fun a => a.appRoleId = rid) := by
      simp only [List.mem_filter, List.mem_flatten]
      exact ⟨⟨p, hp, ha⟩, by simp [hrid]⟩
    exact mem_dedup_fold_of_mem a.principalId _ [] a hmem rfl
  · intro fails p ps
    rfl

/-- Witness for C9 amended at a concrete two-page directory. -/
theorem C9_pagination_witness :
    (∀ p ∈ (removeAllAppRolesFromPrincipalOnSp
        ⟨[[⟨"b1", "q", "r"⟩], [⟨"b2", "q", "r"⟩]], fun _ => false⟩ "q").2.pages,
      ∀ a ∈ p, a.principalId ≠ "q") ∧
    "q" ∈ fetchAppRoleMemberIds [[⟨"b1", "q", "r"⟩], [⟨"b2", "q", "r"⟩]] "r" ∧
    (removeAllAppRolesFromUser (fun _ => false)
        [[⟨"b1", "q", "r"⟩], [⟨"b2", "q", "r"⟩]]).2 =
      (deleteListedAssignments (fun _ => false) [⟨"b1", "q", "r"⟩]).1 ::
        [[⟨"b2", "q", "r"⟩]] := by
  have h := C9_pagination
    ⟨[[⟨"b1", "q", "r"⟩], [⟨"b2", "q", "r"⟩]], fun _ => false⟩ "q"
  refine ⟨h.1 2 rfl, ?_, h.2.2 (fun _ => false) [⟨"b1", "q", "r"⟩]
    [[⟨"b2", "q", "r"⟩]]⟩
  exact h.2.1 [[⟨"b1", "q", "r"⟩], [⟨"b2", "q", "r"⟩]] "r" [⟨"b1", "q", "r"⟩]
    ⟨"b1", "q", "r"⟩ (by simp) (by simp) rfl

/-- Claim C10: the role-to-directory-scope map defines entries only for
Supervisor, Admin, Employee and ContactManager; for a policy-permitted
request with requestedRole = SuperAdmin the map lookup yields none, and
every grant-assignment attempt the run issues carries the undefined scope
identifier — so no SuperAdmin directory grant is ever assigned through this
path. -/
theorem C10_superadmin_scope_unmapped
    (cfg : RoleScopeConfig) (env : Env) (dir : Directory) (store : Store)
    (email : String) (currentUser : User) (adId : String)
    (hSelf : validateNotSelfChange currentUser email = .ok ())
    (hSup : validateSupervisorRoleAssignment currentUser.role
      (some .SuperAdmin) = .ok ())
    (hTgt : validateTarget currentUser (getUserByEmail store email)
      (some .SuperAdmin) = .ok ())
    (hAd : env.adId = some adId)
    (hTok : env.tokenOk = true)
    (hSp : env.spOk = true)
    (hClear : (clearPages dir.deleteFails adId dir.pages).2.2 = false) :
    roleIdMap cfg .SuperAdmin = none ∧
    (∀ r, r ≠ .SuperAdmin → (roleIdMap cfg r).isSome = true) ∧
    Event.assignAttempt 1 none ∈
      (changeUserRole cfg env dir store email (some .SuperAdmin)
        currentUser).trace ∧
    (∀ i sc, Event.assignAttempt i sc ∈
        (changeUserRole cfg env dir store email (some .SuperAdmin)
          currentUser).trace → sc = none) := by
  have hnone : roleIdMap cfg .SuperAdmin = none := rfl
  refine ⟨rfl, ?_, ?_, ?_⟩
  · intro r hr
    cases r <;> first
      | exact absurd rfl hr
      | simp [roleIdMap]
  · cases hT : getUserByEmail store email with
    | none =>
      rw [hT] at hTgt
      by_cases hA1 : env.assignOk 1 <;> by_cases hA2 : env.assignOk 2 <;>
        by_cases hAu : env.auditOk <;> by_cases hOf : env.offlineOk <;>
        simp [changeUserRole, hSelf, hSup, hTgt, hT, hAd, hTok, hSp,
          removeAllAppRolesFromPrincipalOnSp, hClear, retry_two_eq, hnone,
          hA1, hA2, hAu, hOf, upsertUserRole]
    | some t =>
      rw [hT] at hTgt
      by_cases hA1 : env.assignOk 1 <;> by_cases hA2 : env.assignOk 2 <;>
        by_cases hAu : env.auditOk <;> by_cases hOf : env.offlineOk <;>
        simp [changeUserRole, hSelf, hSup, hTgt, hT, hAd, hTok, hSp,
          removeAllAppRolesFromPrincipalOnSp, hClear, retry_two_eq, hnone,
          hA1, hA2, hAu, hOf, upsertUserRole]
  · intro i sc h
    cases hT : getUserByEmail store email with
    | none =>
      rw [hT] at hTgt
      by_cases hA1 : env.assignOk 1 <;> by_cases hA2 : env.assignOk 2 <;>
        by_cases hAu : env.auditOk <;> by_cases hOf : env.offlineOk <;>
        simp [changeUserRole, hSelf, hSup, hTgt, hT, hAd, hTok, hSp,
          removeAllAppRolesFromPrincipalOnSp, hClear, retry_two_eq, hnone,
          hA1, hA2, hAu, hOf, upsertUserRole] at h <;> tauto
    | some t =>
      rw [hT] at hTgt
      by_cases hA1 : env.assignOk 1 <;> by_cases hA2 : env.assignOk 2 <;>
        by_cases hAu : env.auditOk <;> by_cases hOf : env.offlineOk <;>
        simp [changeUserRole, hSelf, hSup, hTgt, hT, hAd, hTok, hSp,
          removeAllAppRolesFromPrincipalOnSp, hClear, retry_two_eq, hnone,
          hA1, hA2, hAu, hOf, upsertUserRole] at h <;> tauto

/-- Witness for C10: the SuperAdmin actor promotes the Employee to
SuperAdmin; the run reaches the assignment step and the attempt carries no
scope identifier. -/
theorem C10_superadmin_scope_unmapped_witness :
    roleIdMap cfgSample .SuperAdmin = none ∧
    Event.assignAttempt 1 none ∈
      (changeUserRole cfgSample envAllOk dirSample storeSample "e@x.com"
        (some .SuperAdmin) superSample).trace := by
  have h := C10_superadmin_scope_unmapped cfgSample envAllOk dirSample
    storeSample "e@x.com" superSample "ad4" rfl rfl (by rfl) rfl rfl rfl rfl
  exact ⟨h.1, h.2.2.1⟩

end MonitoringService
